import Mathlib

/-!
Verification of the anime release-acquisition pipeline.

This file gives a shallow embedding of the core components of the
repository (dedup store, filter engine, concurrency governor, feed
crawler retry loop, scan orchestration, task tracker) and proves the
stated properties about them.

Conventions used throughout the embedding:
- Python strings are Lean `String`; case folding maps `Char.toLower`
  and `Char.toUpper` over the characters, and the Python `in`
  substring test is `List.isInfixOf` on character lists.
- Python truthiness on optional strings (`if s:` is false for both
  `None` and the empty string) is the `truthy` predicate below.
- Network, filesystem and database effects are passed in explicitly
  as oracle values, so every definition is an executable function.
-/

namespace Anime

/-- Lower-case a string character by character, as Python `str.lower` does
for the ASCII inputs handled by the service. -/
def strLower (s : String) : List Char :=
  s.data.map Char.toLower

/-- Upper-case a string character by character, as Python `str.upper` does
for the ASCII inputs handled by the service. -/
def strUpper (s : String) : List Char :=
  s.data.map Char.toUpper

/-- The Python substring operator `needle in hay` on lower- or upper-cased text:
true when the needle occurs contiguously somewhere in the haystack. -/
def substrOf (needle : List Char) : List Char → Bool
  | [] => needle.isEmpty
  | c :: t => needle.isPrefixOf (c :: t) || substrOf needle t

/-- Python truthiness for an optional string: `None` and `""` are falsy. -/
def truthy : Option String → Bool
  | none => false
  | some s => !s.isEmpty

/-! ## DedupStore: `TorrentSeenRepository` (backend/app/db/repositories.py)

The Mongo collection `torrents_seen` is modelled as a list of stored
documents, in insertion order.  Only the fields consulted by
`mark_seen` and `exists` are carried. -/

/-- A stored `SeenRelease` document (`TorrentSeenDocument`), restricted to the
fields the dedup contract reads. -/
structure TorrentSeenDoc where
  anilist_id : Nat
  title : String
  link : String
  infohash : Option String
  deriving DecidableEq

/-- The `torrents_seen` collection. -/
abbrev SeenStore := List TorrentSeenDoc

/-- The filter document `{"anilist_id": tid, "link": link}` used by `mark_seen`. -/
def matchKey (tid : Nat) (link : String) (d : TorrentSeenDoc) : Bool :=
  d.anilist_id == tid && d.link == link

/-- `TorrentSeenRepository.mark_seen`: a `find_one_and_update` on the key
`(anilist_id, link)` with `$setOnInsert` and `upsert=True`.  When a document
with the same key already exists the update writes nothing; otherwise the
document is inserted. -/
def mark_seen (store : SeenStore) (doc : TorrentSeenDoc) : SeenStore :=
  if store.any (matchKey doc.anilist_id doc.link) then store
  else store ++ [doc]

/-- `TorrentSeenRepository.exists`: counts documents matching
`{"anilist_id": tid, "$or": [{"infohash": h}?, {"link": link}]}`, where the
infohash clause is appended only when the argument is truthy. -/
def existsSeen (store : SeenStore) (tid : Nat) (infohash : Option String)
    (link : String) : Bool :=
  store.any fun d =>
    d.anilist_id == tid &&
      ((truthy infohash && d.infohash == infohash) || d.link == link)

/-! ## FilterEngine: `matches_filters` (backend/app/scraper/filters.py)
and the helpers from backend/app/core/utils.py. -/

/-- A candidate release (`NyaaItem`), restricted to the fields the filter and
scan logic read.  Publish timestamps are abstracted to integers. -/
structure NyaaItem where
  title : String
  link : String
  magnet : Option String
  infohash : Option String
  published_at : Option Int
  resolution : Option String
  subgroup : Option String
  deriving DecidableEq

/-- `NyaaFilterInput` from backend/app/scraper/filters.py. -/
structure NyaaFilterInput where
  includes : List String
  excludes : List String
  preferred_resolution : Option String
  preferred_subgroup : Option String
  published_after : Option Int := none
  published_before : Option Int := none
  deriving DecidableEq

/-- `any_includes` from backend/app/core/utils.py: every term must be a
case-insensitive substring of the text. -/
def any_includes (text : String) (includes : List String) : Bool :=
  includes.all fun term => substrOf (strLower term) (strLower text)

/-- `any_excludes` from backend/app/core/utils.py: some term is a
case-insensitive substring of the text. -/
def any_excludes (text : String) (excludes : List String) : Bool :=
  excludes.any fun term => substrOf (strLower term) (strLower text)

/-- The publish-date clause of `matches_filters` (lines 44 to 48): a known
publish time outside the window rejects; datetimes are always truthy in
Python, so only presence is tested on the bounds. -/
def published_rejects (pub after before : Option Int) : Bool :=
  match pub with
  | none => false
  | some p =>
    (match after with
     | some a => decide (p < a)
     | none => false)
    ||
    (match before with
     | some b => decide (b < p)
     | none => false)

/-- `matches_filters` from backend/app/scraper/filters.py, clause for clause:
include terms, exclude terms, preferred resolution (compared upper-cased),
preferred subgroup (compared lower-cased), publish-date window. -/
def matches_filters (item : NyaaItem) (criteria : NyaaFilterInput) : Bool :=
  if !criteria.includes.isEmpty && !any_includes item.title criteria.includes then
    false
  else if !criteria.excludes.isEmpty && any_excludes item.title criteria.excludes then
    false
  else if truthy criteria.preferred_resolution && truthy item.resolution
      && !(strUpper (item.resolution.getD "")
            == strUpper (criteria.preferred_resolution.getD "")) then
    false
  else if truthy criteria.preferred_subgroup && truthy item.subgroup
      && !(strLower (item.subgroup.getD "")
            == strLower (criteria.preferred_subgroup.getD "")) then
    false
  else if published_rejects item.published_at
      criteria.published_after criteria.published_before then
    false
  else
    true

/-! ## ConcurrencyGovernor (backend/app/core/concurrency.py)

`GlobalConcurrencyLimiter` holds one `asyncio.Semaphore(bound)`;
`DomainRateLimiter` holds a defaultdict of per-host semaphores, each of
capacity `max_concurrent`.  A semaphore admits an acquire only while the
number of current holders is below its capacity, so the governor is a
transition system over permit-holder counts. -/

/-- Permit-holder counts: how many operations currently hold the global
permit, and how many hold each per-host permit.  The lazily created
defaultdict of host semaphores is a total function that is zero until a
host is first used. -/
structure GovState where
  globalCount : Nat
  hostCount : String → Nat

/-- No permits are held initially. -/
def GovState.init : GovState :=
  { globalCount := 0, hostCount := fun _ => 0 }

/-- One scheduler step of the governor: an acquire is admitted only below
the corresponding bound (the semaphore blocks otherwise), and a release
requires an outstanding holder.  Releases are guaranteed on every exit path
by the `try/finally` blocks in both limiters. -/
inductive GovStep (gBound hBound : Nat) : GovState → GovState → Prop
  | acquire_global (s : GovState) :
      s.globalCount < gBound →
      GovStep gBound hBound s { s with globalCount := s.globalCount + 1 }
  | release_global (s : GovState) :
      0 < s.globalCount →
      GovStep gBound hBound s { s with globalCount := s.globalCount - 1 }
  | acquire_host (s : GovState) (h : String) :
      s.hostCount h < hBound →
      GovStep gBound hBound s
        { s with hostCount := Function.update s.hostCount h (s.hostCount h + 1) }
  | release_host (s : GovState) (h : String) :
      0 < s.hostCount h →
      GovStep gBound hBound s
        { s with hostCount := Function.update s.hostCount h (s.hostCount h - 1) }

/-- States the governor can reach from the initial state under any
interleaving of any number of concurrent callers. -/
inductive GovReachable (gBound hBound : Nat) : GovState → Prop
  | init : GovReachable gBound hBound GovState.init
  | step {s t : GovState} :
      GovReachable gBound hBound s → GovStep gBound hBound s t →
      GovReachable gBound hBound t

/-! ## SourceCrawler: `NyaaClient` (src/anime_service/scraper/nyaa_client.py)

`_fetch_with_retries` runs `for attempt in range(1, max_retries + 1)`.
The response of each executed attempt is supplied by an environment
`Nat -> NyaaResp` indexed by the attempt number.  The model returns the
list of sleeps performed (seconds) together with the outcome: the parsed
items, or the propagated error after the final failed attempt. -/

/-- Outcome of one HTTP attempt: a 429 with its `Retry-After` header value, a
successful response whose parser yields the given items, or a raised
`httpx.HTTPError`/`ValueError`. -/
inductive NyaaResp
  | rate (retryAfter : Nat)
  | ok (items : List NyaaItem)
  | err
  deriving DecidableEq

/-- The retry loop body of `_fetch_with_retries`.  `attempt` is the current
attempt number and `rem` the number of loop iterations still allowed
(including the current one); the loop ends by returning the empty list when
the iterations are exhausted.  A 429 sleeps `Retry-After` seconds and moves
to the next iteration; success returns the parsed items; an error on the
final attempt propagates, and otherwise sleeps `min(2 ** attempt, 30)`
seconds before the next iteration. -/
def fetchLoop (env : Nat → NyaaResp) : Nat → Nat → List Nat × Except Unit (List NyaaItem)
  | _, 0 => ([], Except.ok [])
  | attempt, rem + 1 =>
    match env attempt with
    | NyaaResp.rate d =>
      let rest := fetchLoop env (attempt + 1) rem
      (d :: rest.1, rest.2)
    | NyaaResp.ok items => ([], Except.ok items)
    | NyaaResp.err =>
      if rem = 0 then ([], Except.error ())
      else
        let rest := fetchLoop env (attempt + 1) rem
        (min (2 ^ attempt) 30 :: rest.1, rest.2)

/-- `NyaaClient._fetch_with_retries`: attempts are numbered from 1. -/
def fetch_with_retries (env : Nat → NyaaResp) (maxRetries : Nat) :
    List Nat × Except Unit (List NyaaItem) :=
  fetchLoop env 1 maxRetries

/-- An environment built from a list of per-attempt responses (attempt `i`
reads entry `i - 1`; attempts beyond the list raise). -/
def respEnv (rs : List NyaaResp) : Nat → NyaaResp :=
  fun i => rs.getD (i - 1) NyaaResp.err

/-- `NyaaClient.fetch`: query the RSS feed first; an error propagates; a
non-empty item list is returned as is; an empty item list triggers the HTML
results-page fallback for the same query. -/
def fetch (rssEnv htmlEnv : Nat → NyaaResp) (maxRetries : Nat) :
    List Nat × Except Unit (List NyaaItem) :=
  let rss := fetch_with_retries rssEnv maxRetries
  match rss.2 with
  | Except.error e => (rss.1, Except.error e)
  | Except.ok items =>
    if items.isEmpty then
      let html := fetch_with_retries htmlEnv maxRetries
      (rss.1 ++ html.1, html.2)
    else
      (rss.1, Except.ok items)

/-! ## AcquisitionPipeline: `scan_nyaa_sources` (backend/app/scheduler/operations.py)

The per-title loop is embedded with its external effects (metadata
lookups and template context, directory creation, the crawl, each
download) supplied as per-title oracle values.  The dedup store is the
`SeenStore` defined above and is threaded through the run. -/

/-- The anime catalog document fields read by `_build_search_query`. -/
structure AnimeInfo where
  titleRomaji : Option String
  titleEnglish : Option String
  titleNative : Option String
  synonyms : List String
  deriving DecidableEq

/-- The `anime_settings` entry fields read by the scan loop. -/
structure ScanEntry where
  anilist_id : Nat
  search_query : Option String
  auto_query_from_synonyms : Bool
  save_path : Option String
  save_path_template : Option String
  includes : List String
  excludes : List String
  preferred_resolution : Option String
  preferred_subgroup : Option String
  deriving DecidableEq

/-- `dict.fromkeys` order-preserving deduplication: keep the first
occurrence of each string. -/
def dedupFirst (seen : List String) : List String → List String
  | [] => []
  | x :: xs =>
    if x ∈ seen then dedupFirst seen xs
    else x :: dedupFirst (x :: seen) xs

/-- `_build_search_query`: the explicit truthy `search_query` wins; otherwise,
when `auto_query_from_synonyms` is set and the anime document is present, the
space-joined deduplicated list of truthy titles and synonyms; otherwise no
query. -/
def buildSearchQuery (setting : ScanEntry) (anime : Option AnimeInfo) : Option String :=
  if truthy setting.search_query then setting.search_query
  else if setting.auto_query_from_synonyms then
    match anime with
    | none => none
    | some a =>
      let titles := [a.titleRomaji.getD "", a.titleEnglish.getD "", a.titleNative.getD ""]
        ++ a.synonyms
      let filtered := titles.filter fun v => v ≠ ""
      if filtered.isEmpty then none
      else some (" ".intercalate (dedupFirst [] filtered))
  else none

/-- Outcome of `ensure_directory` for the resolved save path: success, a
`ValueError` (caught by the loop, counted as a failure for this title), or a
`FileNotFoundError` when creation is disabled (not caught: it escapes the
scan body). -/
inductive DirResult
  | ok
  | invalid
  | missing
  deriving DecidableEq

/-- The external effects of one title iteration: the catalog document, the
result of rendering the save-path template over the metadata context, the
directory outcome, the crawl outcome, and the per-item download outcome. -/
structure TitleEnv where
  animeInfo : Option AnimeInfo
  renderedTemplate : String
  dirResult : DirResult
  fetchResult : Except Unit (List NyaaItem)
  downloadOk : NyaaItem → Bool

/-- Accumulated scan-run state: the dedup store, every `downloader.download`
call issued so far as `(anilist_id, link)`, and the tracker counters. -/
structure RunAcc where
  store : SeenStore
  downloads : List (Nat × String)
  processed : Nat
  succeeded : Nat
  failed : Nat

/-- The `NyaaFilterInput` built by the scan loop (no publish-date window). -/
def entryFilters (e : ScanEntry) : NyaaFilterInput :=
  { includes := e.includes
    excludes := e.excludes
    preferred_resolution := e.preferred_resolution
    preferred_subgroup := e.preferred_subgroup }

/-- The inner `for item in items` loop: skip items failing the filters, skip
items already in the dedup store, otherwise call the downloader; a failed
download counts a failure and continues, a successful one counts a success
and records the release via `mark_seen`.  (The optional export block only
writes export history and is elided.) -/
def processItems (tid : Nat) (flt : NyaaFilterInput) (env : TitleEnv) :
    RunAcc → List NyaaItem → RunAcc
  | acc, [] => acc
  | acc, item :: rest =>
    if !matches_filters item flt then
      processItems tid flt env acc rest
    else if existsSeen acc.store tid item.infohash item.link then
      processItems tid flt env acc rest
    else
      let acc1 := { acc with downloads := acc.downloads ++ [(tid, item.link)] }
      if env.downloadOk item then
        let doc : TorrentSeenDoc :=
          { anilist_id := tid, title := item.title, link := item.link
            infohash := item.infohash }
        processItems tid flt env
          { acc1 with succeeded := acc1.succeeded + 1
                      store := mark_seen acc1.store doc } rest
      else
        processItems tid flt env { acc1 with failed := acc1.failed + 1 } rest

/-- The tail of one title iteration after the save path is resolved:
directory check, crawl, then the item loop.  A `missing` directory raises
out of the scan body; an `invalid` one or a crawl error is isolated to this
title. -/
def scanWithPath (e : ScanEntry) (env : TitleEnv) (acc : RunAcc) : Except Unit RunAcc :=
  match env.dirResult with
  | DirResult.missing => Except.error ()
  | DirResult.invalid => Except.ok { acc with failed := acc.failed + 1 }
  | DirResult.ok =>
    match env.fetchResult with
    | Except.error _ => Except.ok { acc with failed := acc.failed + 1 }
    | Except.ok items =>
      if items.isEmpty then Except.ok acc
      else Except.ok (processItems e.anilist_id (entryFilters e) env acc items)

/-- One iteration of the `for entry in enabled_settings` loop of
`scan_nyaa_sources`: resolve the query (no query skips the title), count it
as processed, then resolve the save path: a truthy template that renders to
the empty string skips the title, a truthy template rendering non-empty or
an explicit `save_path` proceeds, and neither one skips the title. -/
def scanTitle (e : ScanEntry) (env : TitleEnv) (acc : RunAcc) : Except Unit RunAcc :=
  match buildSearchQuery e env.animeInfo with
  | none => Except.ok acc
  | some _ =>
    let acc1 := { acc with processed := acc.processed + 1 }
    if truthy e.save_path_template then
      if env.renderedTemplate = "" then Except.ok acc1
      else scanWithPath e env acc1
    else if truthy e.save_path then scanWithPath e env acc1
    else Except.ok acc1

/-- The whole scan run over the enabled settings, sequentially; an escaped
exception from one title aborts the remainder of the run. -/
def scanRun : List (ScanEntry × TitleEnv) → RunAcc → Except Unit RunAcc
  | [], acc => Except.ok acc
  | (e, env) :: rest, acc =>
    match scanTitle e env acc with
    | Except.error u => Except.error u
    | Except.ok acc2 => scanRun rest acc2

/-! ## TaskTracker (backend/app/core/task_tracker.py)

`track_task` creates the history row in `running` status, runs the wrapped
body, and issues exactly one terminal update: `complete` on normal return,
`fail` on an escaping exception.  The body is summarised by the counter
values it accumulated and its outcome (the optional result payload it set,
or the stringified escaping error). -/

/-- Task status values written by the tracker. -/
inductive TaskStatus
  | running
  | completed
  | failed
  deriving DecidableEq

/-- Result payloads, abstracted to key-value lists (`{}` is `[]`). -/
abbrev ResultPayload := List (String × String)

/-- The task-history document fields written by the tracker.  Timestamps are
abstracted to the flag that `completed_at` has been set. -/
structure TaskDoc where
  status : TaskStatus
  result : Option ResultPayload
  error : Option String
  items_processed : Nat
  items_succeeded : Nat
  items_failed : Nat
  completed_at_set : Bool
  deriving DecidableEq

/-- The tracker counters at the moment the body returns or raises. -/
structure TrackerCounts where
  processed : Nat
  succeeded : Nat
  failed : Nat
  deriving DecidableEq

/-- `TaskTracker.start`: the document created in `running` status with
zeroed counters. -/
def startDoc : TaskDoc :=
  { status := TaskStatus.running, result := none, error := none
    items_processed := 0, items_succeeded := 0, items_failed := 0
    completed_at_set := false }

/-- `TaskTracker.complete`: the `$set` update applied to the row, storing
`result or {}` and the accumulated counters. -/
def completeUpdate (c : TrackerCounts) (result : Option ResultPayload)
    (d : TaskDoc) : TaskDoc :=
  { d with status := TaskStatus.completed, completed_at_set := true
           result := some (result.getD [])
           items_processed := c.processed, items_succeeded := c.succeeded
           items_failed := c.failed }

/-- `TaskTracker.fail`: the `$set` update applied to the row, storing the
captured error text and the accumulated counters. -/
def failUpdate (c : TrackerCounts) (err : String) (d : TaskDoc) : TaskDoc :=
  { d with status := TaskStatus.failed, completed_at_set := true
           error := some err
           items_processed := c.processed, items_succeeded := c.succeeded
           items_failed := c.failed }

/-- `track_task`: the successive persisted states of the task row.  The row
is created by `start`, then `complete` runs on normal return of the body and
`fail` runs on an escaping exception (which is then re-raised). -/
def track_task (c : TrackerCounts) (out : Except String (Option ResultPayload)) :
    List TaskDoc :=
  match out with
  | Except.ok r => [startDoc, completeUpdate c r startDoc]
  | Except.error e => [startDoc, failUpdate c e startDoc]

/-- A concrete candidate release used by the concrete instances below. -/
def sampleItem : NyaaItem :=
  { title := "[SubsPlease] Spy x Family - 01 (1080p)"
    link := "https://nyaa.si/download/12345.torrent"
    magnet := none
    infohash := some "abcdef1234567890abcdef1234567890abcdef12"
    published_at := none
    resolution := some "1080P"
    subgroup := some "SubsPlease" }

/-! ## Theorems -/

/-- C1: for every title id, infohash and link, marking the same record seen
twice stores exactly one matching record, the second call is a no-op on the
store (not an error), and `exists` is true for the record after the first
call. -/
theorem mark_seen_idempotent (s : SeenStore) (doc : TorrentSeenDoc)
    (hnew : ∀ d ∈ s, matchKey doc.anilist_id doc.link d = false) :
    mark_seen (mark_seen s doc) doc = mark_seen s doc
    ∧ ((mark_seen s doc).filter (matchKey doc.anilist_id doc.link)).length = 1
    ∧ existsSeen (mark_seen s doc) doc.anilist_id doc.infohash doc.link = true := by
  have hany : s.any (matchKey doc.anilist_id doc.link) = false := by
    rw [List.any_eq_false]
    intro d hd
    simp [hnew d hd]
  have hself : matchKey doc.anilist_id doc.link doc = true := by
    simp [matchKey]
  have hfirst : mark_seen s doc = s ++ [doc] := by
    simp [mark_seen, hany]
  refine ⟨?_, ?_, ?_⟩
  · rw [hfirst]
    simp [mark_seen, List.any_append, hany, hself]
  · rw [hfirst, List.filter_append]
    have hnilf : s.filter (matchKey doc.anilist_id doc.link) = [] := by
      rw [List.filter_eq_nil_iff]
      intro d hd
      simp [hnew d hd]
    simp [hnilf, hself]
  · rw [hfirst, existsSeen, List.any_append]
    simp

/-- C10: `exists` evaluates the infohash clause only among records stored
under the queried title id: when no record with that title id matches the
infohash or the link, `exists` is false, no matter which records other
titles have stored. -/
theorem existsSeen_scoped_by_title (s : SeenStore) (tid : Nat) (h link : String)
    (hno : ∀ d ∈ s, d.anilist_id = tid → d.infohash ≠ some h ∧ d.link ≠ link) :
    existsSeen s tid (some h) link = false := by
  rw [existsSeen, List.any_eq_false]
  intro d hd
  by_cases htid : d.anilist_id = tid
  · obtain ⟨hih, hlk⟩ := hno d hd htid
    simp [htid, hih, hlk]
  · simp [htid]

/-- Witness for C1 at a concrete record over an unrelated pre-existing store. -/
theorem mark_seen_idempotent_witness :
    (∀ d ∈ ([⟨7, "other", "other-link", none⟩] : SeenStore),
        matchKey 1 "https://nyaa.si/download/1.torrent" d = false)
    ∧ (mark_seen (mark_seen [⟨7, "other", "other-link", none⟩]
          ⟨1, "ep1", "https://nyaa.si/download/1.torrent", some "ab12"⟩)
          ⟨1, "ep1", "https://nyaa.si/download/1.torrent", some "ab12"⟩
        = mark_seen [⟨7, "other", "other-link", none⟩]
          ⟨1, "ep1", "https://nyaa.si/download/1.torrent", some "ab12"⟩)
    ∧ ((mark_seen [⟨7, "other", "other-link", none⟩]
          ⟨1, "ep1", "https://nyaa.si/download/1.torrent", some "ab12"⟩).filter
          (matchKey 1 "https://nyaa.si/download/1.torrent")).length = 1
    ∧ existsSeen (mark_seen [⟨7, "other", "other-link", none⟩]
          ⟨1, "ep1", "https://nyaa.si/download/1.torrent", some "ab12"⟩)
        1 (some "ab12") "https://nyaa.si/download/1.torrent" = true := by
  have happ := mark_seen_idempotent [⟨7, "other", "other-link", none⟩]
    ⟨1, "ep1", "https://nyaa.si/download/1.torrent", some "ab12"⟩ (by decide)
  exact ⟨by decide, happ.1, happ.2.1, happ.2.2⟩

/-- Witness for C10: a record with the queried infohash stored under a
different title id does not make `exists` true. -/
theorem existsSeen_scoped_by_title_witness :
    (∀ d ∈ ([⟨99, "ep", "some-link", some "abcdef12"⟩] : SeenStore),
        d.anilist_id = 1 → d.infohash ≠ some "abcdef12" ∧ d.link ≠ "other-link")
    ∧ existsSeen [⟨99, "ep", "some-link", some "abcdef12"⟩]
        1 (some "abcdef12") "other-link" = false := by
  refine ⟨by decide, ?_⟩
  exact existsSeen_scoped_by_title _ 1 "abcdef12" "other-link" (by decide)

/-- Characterization of `matches_filters`: the candidate matches exactly when
every reject clause is false. -/
theorem matches_filters_true_iff (item : NyaaItem) (c : NyaaFilterInput) :
    matches_filters item c = true ↔
      (!c.includes.isEmpty && !any_includes item.title c.includes) = false
      ∧ (!c.excludes.isEmpty && any_excludes item.title c.excludes) = false
      ∧ (truthy c.preferred_resolution && truthy item.resolution
          && !(strUpper (item.resolution.getD "")
                == strUpper (c.preferred_resolution.getD ""))) = false
      ∧ (truthy c.preferred_subgroup && truthy item.subgroup
          && !(strLower (item.subgroup.getD "")
                == strLower (c.preferred_subgroup.getD ""))) = false
      ∧ published_rejects item.published_at c.published_after c.published_before
          = false := by
  simp only [matches_filters]
  split_ifs with h1 h2 h3 h4 h5 <;> simp_all

/-- C6: any case-insensitive exclude-term hit on the title rejects the
candidate, and a matching candidate has every include term as a
case-insensitive substring of its title. -/
theorem matches_filters_terms (item : NyaaItem) (c : NyaaFilterInput) :
    ((∃ t ∈ c.excludes, substrOf (strLower t) (strLower item.title) = true) →
        matches_filters item c = false)
    ∧ (matches_filters item c = true →
        ∀ t ∈ c.includes, substrOf (strLower t) (strLower item.title) = true) := by
  constructor
  · rintro ⟨t, ht, hsub⟩
    have hexc : any_excludes item.title c.excludes = true :=
      List.any_eq_true.mpr ⟨t, ht, hsub⟩
    have hne : c.excludes.isEmpty = false := by
      simp only [List.isEmpty_eq_false]
      exact List.ne_nil_of_mem ht
    simp [matches_filters, hexc, hne]
  · intro hm t ht
    by_contra hns
    have hsub : substrOf (strLower t) (strLower item.title) = false := by
      simpa using hns
    have hinc : any_includes item.title c.includes = false := by
      rw [any_includes, List.all_eq_false]
      exact ⟨t, ht, by simp [hsub]⟩
    have hne : c.includes.isEmpty = false := by
      simp only [List.isEmpty_eq_false]
      exact List.ne_nil_of_mem ht
    simp [matches_filters, hinc, hne] at hm

/-- C7: when the profile prefers a resolution (resp. subgroup) and the
candidate field is known, a match forces case-insensitive equality of that
field, while an unknown candidate field makes the preference irrelevant to
the outcome. -/
theorem matches_filters_preferred (item : NyaaItem) (c : NyaaFilterInput) :
    (∀ p r, c.preferred_resolution = some p → p ≠ "" →
        item.resolution = some r → r ≠ "" →
        matches_filters item c = true → strUpper r = strUpper p)
    ∧ (∀ p g, c.preferred_subgroup = some p → p ≠ "" →
        item.subgroup = some g → g ≠ "" →
        matches_filters item c = true → strLower g = strLower p)
    ∧ (item.resolution = none → ∀ p,
        matches_filters item { c with preferred_resolution := p }
          = matches_filters item { c with preferred_resolution := none })
    ∧ (item.subgroup = none → ∀ p,
        matches_filters item { c with preferred_subgroup := p }
          = matches_filters item { c with preferred_subgroup := none }) := by
  refine ⟨?_, ?_, ?_, ?_⟩
  · intro p r hp hpne hr hrne hm
    have h3 := ((matches_filters_true_iff item c).mp hm).2.2.1
    rw [hp, hr] at h3
    have hpe : p.isEmpty = false := by
      cases hpe2 : p.isEmpty
      · rfl
      · exact absurd (by simpa [String.isEmpty_iff] using hpe2) hpne
    have hre : r.isEmpty = false := by
      cases hre2 : r.isEmpty
      · rfl
      · exact absurd (by simpa [String.isEmpty_iff] using hre2) hrne
    simpa [truthy, hpe, hre] using h3
  · intro p g hp hpne hg hgne hm
    have h4 := ((matches_filters_true_iff item c).mp hm).2.2.2.1
    rw [hp, hg] at h4
    have hpe : p.isEmpty = false := by
      cases hpe2 : p.isEmpty
      · rfl
      · exact absurd (by simpa [String.isEmpty_iff] using hpe2) hpne
    have hge : g.isEmpty = false := by
      cases hge2 : g.isEmpty
      · rfl
      · exact absurd (by simpa [String.isEmpty_iff] using hge2) hgne
    simpa [truthy, hpe, hge] using h4
  · intro hres p
    simp [matches_filters, hres, truthy]
  · intro hsub p
    simp [matches_filters, hsub, truthy]

/-- Witness for C6 on the scenario candidate title. -/
theorem matches_filters_terms_witness :
    (∃ t ∈ ["dub"], substrOf (strLower t)
        (strLower "[SubsPlease] Spy x Family - 01 (1080p) dub") = true)
    ∧ matches_filters
        { title := "[SubsPlease] Spy x Family - 01 (1080p) dub", link := "L"
          magnet := none, infohash := none, published_at := none
          resolution := some "1080P", subgroup := some "SubsPlease" }
        { includes := ["spy"], excludes := ["dub"]
          preferred_resolution := none, preferred_subgroup := none } = false := by
  refine ⟨by decide, ?_⟩
  exact (matches_filters_terms _ _).1 (by decide)

/-- Witness for C7: a matching candidate with known resolution agrees with
the preferred resolution up to case. -/
theorem matches_filters_preferred_witness :
    matches_filters
        { title := "[SubsPlease] Spy x Family - 01 (1080p)", link := "L"
          magnet := none, infohash := none, published_at := none
          resolution := some "1080p", subgroup := some "SubsPlease" }
        { includes := ["spy"], excludes := []
          preferred_resolution := some "1080P", preferred_subgroup := none } = true
    ∧ strUpper "1080p" = strUpper "1080P" := by
  refine ⟨by decide, ?_⟩
  exact (matches_filters_preferred
      { title := "[SubsPlease] Spy x Family - 01 (1080p)", link := "L"
        magnet := none, infohash := none, published_at := none
        resolution := some "1080p", subgroup := some "SubsPlease" }
      { includes := ["spy"], excludes := []
        preferred_resolution := some "1080P", preferred_subgroup := none }).1
    "1080P" "1080p" rfl (by decide) rfl (by decide) (by decide)

/-- C2: however many concurrent callers compete, every state the governor
can reach keeps the number of simultaneous holders of the global permit at
or below the global bound, and the number of simultaneous holders of any
single host permit at or below the per-host bound. -/
theorem governor_bounds (gBound hBound : Nat) (s : GovState)
    (hr : GovReachable gBound hBound s) :
    s.globalCount ≤ gBound ∧ ∀ host : String, s.hostCount host ≤ hBound := by
  induction hr with
  | init => exact ⟨Nat.zero_le _, fun _ => Nat.zero_le _⟩
  | step _ hstep ih =>
    obtain ⟨ihg, ihh⟩ := ih
    cases hstep with
    | acquire_global hlt => exact ⟨hlt, ihh⟩
    | release_global hpos => exact ⟨Nat.le_trans (Nat.sub_le _ _) ihg, ihh⟩
    | acquire_host h hlt =>
      refine ⟨ihg, fun host => ?_⟩
      by_cases hh : host = h
      · subst hh
        simp only [Function.update_apply, if_pos rfl, if_true, eq_self_iff_true]
        omega
      · simp only [Function.update_apply, if_neg hh]
        exact ihh host
    | release_host h hpos =>
      refine ⟨ihg, fun host => ?_⟩
      by_cases hh : host = h
      · subst hh
        simp only [Function.update_apply, if_pos rfl]
        exact Nat.le_trans (Nat.sub_le _ _) (ihh host)
      · simp only [Function.update_apply, if_neg hh]
        exact ihh host

/-- Witness for C2: the state reached by one global acquire followed by one
host acquire, under bounds 2 and 1, respects both bounds. -/
theorem governor_bounds_witness :
    GovReachable 2 1
      { globalCount := 1, hostCount := Function.update (fun _ => 0) "nyaa.si" 1 }
    ∧ ({ globalCount := 1
         hostCount := Function.update (fun _ => 0) "nyaa.si" 1 : GovState }).globalCount ≤ 2
    ∧ ∀ host : String,
        ({ globalCount := 1
           hostCount := Function.update (fun _ => 0) "nyaa.si" 1 : GovState }).hostCount host ≤ 1 := by
  have hreach : GovReachable 2 1
      { globalCount := 1, hostCount := Function.update (fun _ => 0) "nyaa.si" 1 } :=
    GovReachable.step
      (GovReachable.step GovReachable.init
        (GovStep.acquire_global GovState.init (by decide)))
      (GovStep.acquire_host
        { globalCount := 1, hostCount := fun _ => 0 } "nyaa.si" (by decide))
  have hb := governor_bounds 2 1 _ hreach
  exact ⟨hreach, hb.1, hb.2⟩

/-- C3 counterexample: a 429 does consume an attempt.  With a budget of one
attempt, a 429 followed by a response that would succeed ends the fetch with
the empty list: the retry budget remaining after the 429 is smaller than
before it, so prepending the 429 changes the outcome. -/
theorem rate_limit_preserves_budget_cex :
    ¬ ((fetch_with_retries (respEnv [NyaaResp.rate 2, NyaaResp.ok [sampleItem]]) 1).2
        = (fetch_with_retries (respEnv [NyaaResp.ok [sampleItem]]) 1).2) := by
  intro hcon
  have h1 : (fetch_with_retries (respEnv [NyaaResp.rate 2, NyaaResp.ok [sampleItem]]) 1).2
      = Except.ok [] := rfl
  have h2 : (fetch_with_retries (respEnv [NyaaResp.ok [sampleItem]]) 1).2
      = Except.ok [sampleItem] := rfl
  rw [h1, h2] at hcon
  simp at hcon

/-- C3 amended: on HTTP 429 the crawler sleeps the server-specified
Retry-After delay and then retries, but the retry consumes an attempt from
the same budget: with budget remaining the next attempt proceeds (here
succeeding after the single sleep), and a 429 on the final attempt exhausts
the loop, returning the empty item list rather than an error. -/
theorem rate_limit_sleeps_and_consumes_attempt (env : Nat → NyaaResp) (n d : Nat)
    (h1 : env 1 = NyaaResp.rate d) :
    (∀ items, env 2 = NyaaResp.ok items → 2 ≤ n →
        fetch_with_retries env n = ([d], Except.ok items))
    ∧ (n = 1 → fetch_with_retries env n = ([d], Except.ok [])) := by
  constructor
  · intro items h2 hn
    obtain ⟨m, rfl⟩ : ∃ m, n = m + 2 := ⟨n - 2, by omega⟩
    simp [fetch_with_retries, fetchLoop, h1, h2]
  · intro hn
    subst hn
    simp [fetch_with_retries, fetchLoop, h1]

/-- Witness for the amended C3: a 429 with Retry-After 2 sleeps 2 seconds,
then the next attempt succeeds. -/
theorem rate_limit_sleeps_and_consumes_attempt_witness :
    (respEnv [NyaaResp.rate 2, NyaaResp.ok [sampleItem]] 1 = NyaaResp.rate 2)
    ∧ (respEnv [NyaaResp.rate 2, NyaaResp.ok [sampleItem]] 2
        = NyaaResp.ok [sampleItem])
    ∧ fetch_with_retries (respEnv [NyaaResp.rate 2, NyaaResp.ok [sampleItem]]) 3
        = ([2], Except.ok [sampleItem]) := by
  refine ⟨rfl, rfl, ?_⟩
  exact (rate_limit_sleeps_and_consumes_attempt
      (respEnv [NyaaResp.rate 2, NyaaResp.ok [sampleItem]]) 3 2 rfl).1
    [sampleItem] rfl (by omega)

/-- Shifting the attempt index out of the head of a backoff-sleep list. -/
theorem range_map_shift (r a : Nat) :
    (List.range (r + 1)).map (fun k => min (2 ^ (a + k)) 30)
      = min (2 ^ a) 30
          :: (List.range r).map (fun k => min (2 ^ (a + 1 + k)) 30) := by
  have h2 : (List.range r).map ((fun k => min (2 ^ (a + k)) 30) ∘ Nat.succ)
      = (List.range r).map (fun k => min (2 ^ (a + 1 + k)) 30) := by
    apply List.map_congr_left
    intro k _
    show min (2 ^ (a + (k + 1))) 30 = min (2 ^ (a + 1 + k)) 30
    have hk : a + (k + 1) = a + 1 + k := by omega
    rw [hk]
  rw [List.range_succ_eq_map, List.map_cons, List.map_map, h2, Nat.add_zero]

/-- Backoff shape of the retry loop: when every remaining attempt raises a
transient error, each non-final attempt `i` sleeps `min(2 ^ i, 30)` seconds
and the final attempt propagates the error. -/
theorem fetchLoop_all_err (env : Nat → NyaaResp) :
    ∀ rem a, 1 ≤ rem → (∀ i, a ≤ i → i < a + rem → env i = NyaaResp.err) →
      fetchLoop env a rem
        = ((List.range (rem - 1)).map (fun k => min (2 ^ (a + k)) 30),
            Except.error ()) := by
  intro rem
  induction rem with
  | zero => intro a h; omega
  | succ r ih =>
    intro a _ henv
    have ha : env a = NyaaResp.err := henv a (Nat.le_refl a) (by omega)
    cases r with
    | zero =>
      simp [fetchLoop, ha]
    | succ r2 =>
      have hrec := ih (a + 1) (by omega)
        (fun i hi1 hi2 => henv i (by omega) (by omega))
      have hstep : fetchLoop env a (r2 + 1 + 1)
          = (min (2 ^ a) 30 :: (fetchLoop env (a + 1) (r2 + 1)).1,
             (fetchLoop env (a + 1) (r2 + 1)).2) := by
        rw [fetchLoop, ha]
        simp
      rw [hstep, hrec]
      show (min (2 ^ a) 30
          :: (List.range (r2 + 1 - 1)).map (fun k => min (2 ^ (a + 1 + k)) 30),
          Except.error ())
        = ((List.range (r2 + 1 + 1 - 1)).map (fun k => min (2 ^ (a + k)) 30),
            Except.error ())
      rw [show r2 + 1 + 1 - 1 = r2 + 1 from rfl, show r2 + 1 - 1 = r2 from rfl,
        range_map_shift r2 a]

/-- C5: with every one of the N allowed attempts failing transiently, the
crawler sleeps `min(2 ^ i, 30)` seconds after each non-final attempt `i`
(capping the backoff at 30 seconds) and, after exhausting all N attempts,
propagates the failure to the caller as an error rather than a result. -/
theorem retries_exhaust_propagate (env : Nat → NyaaResp) (n : Nat)
    (hn : 1 ≤ n) (herr : ∀ i, 1 ≤ i → i ≤ n → env i = NyaaResp.err) :
    fetch_with_retries env n
      = ((List.range (n - 1)).map (fun k => min (2 ^ (k + 1)) 30),
          Except.error ()) := by
  have h := fetchLoop_all_err env n 1 hn (fun i hi1 hi2 => herr i hi1 (by omega))
  have hlist : (List.range (n - 1)).map (fun k => min (2 ^ (1 + k)) 30)
      = (List.range (n - 1)).map (fun k => min (2 ^ (k + 1)) 30) := by
    apply List.map_congr_left
    intro k _
    rw [Nat.add_comm]
  rw [fetch_with_retries, h, hlist]

/-- Witness for C5 at a two-attempt budget with both attempts failing. -/
theorem retries_exhaust_propagate_witness :
    (1 ≤ 2)
    ∧ (∀ i, 1 ≤ i → i ≤ 2 → (fun _ => NyaaResp.err) i = NyaaResp.err)
    ∧ fetch_with_retries (fun _ => NyaaResp.err) 2 = ([2], Except.error ()) := by
  refine ⟨by omega, fun i _ _ => rfl, ?_⟩
  have h := retries_exhaust_propagate (fun _ => NyaaResp.err) 2 (by omega)
    (fun i _ _ => rfl)
  rw [h]
  rfl

/-- C4: the fetch queries the structured RSS feed first; a successful
non-empty RSS result is returned as is and the HTML fallback is never
consulted, while a successful RSS result with zero items triggers the HTML
results-page fallback for the same query before returning. -/
theorem fetch_rss_then_html_fallback (rssEnv htmlEnv : Nat → NyaaResp) (n : Nat) :
    (∀ items, (fetch_with_retries rssEnv n).2 = Except.ok items → items ≠ [] →
        fetch rssEnv htmlEnv n = ((fetch_with_retries rssEnv n).1, Except.ok items)
        ∧ ∀ htmlEnv2, fetch rssEnv htmlEnv n = fetch rssEnv htmlEnv2 n)
    ∧ ((fetch_with_retries rssEnv n).2 = Except.ok [] →
        (fetch rssEnv htmlEnv n).2 = (fetch_with_retries htmlEnv n).2) := by
  constructor
  · intro items hok hne
    have hfe : items.isEmpty = false := by
      simp only [List.isEmpty_eq_false]
      exact hne
    constructor
    · simp [fetch, hok, hfe]
    · intro htmlEnv2
      simp [fetch, hok, hfe]
  · intro hok
    simp [fetch, hok]

/-- Witness for C4: an RSS success with zero items falls back to the HTML
result for the same query. -/
theorem fetch_rss_then_html_fallback_witness :
    ((fetch_with_retries (respEnv [NyaaResp.ok []]) 1).2 = Except.ok [])
    ∧ (fetch (respEnv [NyaaResp.ok []]) (respEnv [NyaaResp.ok [sampleItem]]) 1).2
        = (fetch_with_retries (respEnv [NyaaResp.ok [sampleItem]]) 1).2 := by
  refine ⟨rfl, ?_⟩
  exact (fetch_rss_then_html_fallback (respEnv [NyaaResp.ok []])
      (respEnv [NyaaResp.ok [sampleItem]]) 1).2 rfl

/-- C8: an enabled title whose destination template renders to the empty
string is skipped with zero downloader calls (the downloads list and store
are unchanged, only the processed counter advances), and the scan run
continues with the remaining titles instead of aborting. -/
theorem empty_template_skips_title (e : ScanEntry) (env : TitleEnv)
    (rest : List (ScanEntry × TitleEnv)) (acc : RunAcc) (q : String)
    (hq : buildSearchQuery e env.animeInfo = some q)
    (ht : truthy e.save_path_template = true)
    (hr : env.renderedTemplate = "") :
    scanTitle e env acc = Except.ok { acc with processed := acc.processed + 1 }
    ∧ scanRun ((e, env) :: rest) acc
        = scanRun rest { acc with processed := acc.processed + 1 } := by
  have h1 : scanTitle e env acc
      = Except.ok { acc with processed := acc.processed + 1 } := by
    simp [scanTitle, hq, ht, hr]
  exact ⟨h1, by simp [scanRun, h1]⟩

/-- Witness for C8 at a concrete enabled title with an explicit query and a
template that rendered empty. -/
theorem empty_template_skips_title_witness :
    (buildSearchQuery
        { anilist_id := 1, search_query := some "Spy x Family"
          auto_query_from_synonyms := false, save_path := none
          save_path_template := some "{tvdb.seasonNumber}"
          includes := [], excludes := []
          preferred_resolution := none, preferred_subgroup := none }
        none = some "Spy x Family")
    ∧ scanTitle
        { anilist_id := 1, search_query := some "Spy x Family"
          auto_query_from_synonyms := false, save_path := none
          save_path_template := some "{tvdb.seasonNumber}"
          includes := [], excludes := []
          preferred_resolution := none, preferred_subgroup := none }
        { animeInfo := none, renderedTemplate := ""
          dirResult := DirResult.ok, fetchResult := Except.ok []
          downloadOk := fun _ => true }
        { store := [], downloads := [], processed := 0, succeeded := 0, failed := 0 }
      = Except.ok
          { store := [], downloads := [], processed := 1, succeeded := 0, failed := 0 } := by
  refine ⟨by decide, ?_⟩
  exact (empty_template_skips_title
      { anilist_id := 1, search_query := some "Spy x Family"
        auto_query_from_synonyms := false, save_path := none
        save_path_template := some "{tvdb.seasonNumber}"
        includes := [], excludes := []
        preferred_resolution := none, preferred_subgroup := none }
      { animeInfo := none, renderedTemplate := ""
        dirResult := DirResult.ok, fetchResult := Except.ok []
        downloadOk := fun _ => true }
      []
      { store := [], downloads := [], processed := 0, succeeded := 0, failed := 0 }
      "Spy x Family" (by decide) (by decide) rfl).1

/-- C9: the tracker creates the run in running status and issues exactly one
terminal update to it: completed with the result payload and the accumulated
counters on normal return, failed with the captured error text and the
accumulated counters on an escaping error; no run is marked both, and no
update follows the terminal one. -/
theorem track_task_terminal (c : TrackerCounts)
    (out : Except String (Option ResultPayload)) :
    ∃ dlast : TaskDoc,
      track_task c out = [startDoc, dlast]
      ∧ startDoc.status = TaskStatus.running
      ∧ dlast.status ≠ TaskStatus.running
      ∧ (dlast.status = TaskStatus.completed ↔ ∃ r, out = Except.ok r)
      ∧ (dlast.status = TaskStatus.failed ↔ ∃ msg, out = Except.error msg)
      ∧ dlast.items_processed = c.processed
      ∧ dlast.items_succeeded = c.succeeded
      ∧ dlast.items_failed = c.failed
      ∧ (∀ r, out = Except.ok r → dlast.result = some (r.getD []))
      ∧ (∀ msg, out = Except.error msg → dlast.error = some msg) := by
  cases out with
  | ok r =>
    refine ⟨completeUpdate c r startDoc, rfl, rfl, ?_, ?_, ?_, rfl, rfl, rfl, ?_, ?_⟩
    · simp [completeUpdate]
    · simp [completeUpdate]
    · simp [completeUpdate]
    · intro r2 h
      have : r = r2 := by simpa using h
      subst this
      rfl
    · intro msg h
      simp at h
  | error msg =>
    refine ⟨failUpdate c msg startDoc, rfl, rfl, ?_, ?_, ?_, rfl, rfl, rfl, ?_, ?_⟩
    · simp [failUpdate]
    · simp [failUpdate]
    · simp [failUpdate]
    · intro r2 h
      simp at h
    · intro msg2 h
      have : msg = msg2 := by simpa using h
      subst this
      rfl

/-- Witness for C9 on a concrete failing body. -/
theorem track_task_terminal_witness :
    ∃ dlast : TaskDoc,
      track_task ⟨3, 2, 1⟩ (Except.error "boom") = [startDoc, dlast]
      ∧ startDoc.status = TaskStatus.running
      ∧ dlast.status ≠ TaskStatus.running
      ∧ (dlast.status = TaskStatus.completed
          ↔ ∃ r, (Except.error "boom" : Except String (Option ResultPayload))
              = Except.ok r)
      ∧ (dlast.status = TaskStatus.failed
          ↔ ∃ msg, (Except.error "boom" : Except String (Option ResultPayload))
              = Except.error msg)
      ∧ dlast.items_processed = 3
      ∧ dlast.items_succeeded = 2
      ∧ dlast.items_failed = 1
      ∧ (∀ r, (Except.error "boom" : Except String (Option ResultPayload))
            = Except.ok r → dlast.result = some (r.getD []))
      ∧ (∀ msg, (Except.error "boom" : Except String (Option ResultPayload))
            = Except.error msg → dlast.error = some msg) :=
  track_task_terminal ⟨3, 2, 1⟩ (Except.error "boom")

end Anime
